import Mathlib

set_option autoImplicit false

/-!
Verification development for the `lib-srt-utils` experiment orchestration core.

The Lean definitions below are a shallow embedding of the Python modules
`srt_utils/objects.py`, `srt_utils/process.py`, `srt_utils/object_runners.py`
and `srt_utils/runners.py`.  Pure argument-vector construction is embedded as
pure functions on `String`.  Stateful methods are embedded as functions from
the object state (plus an environment describing the outside world: the OS
process being polled, the file system, the control channel) to a triple of
an `Except`-typed result (a Python `raise` becomes `.error`), the post-call
object state (Python objects persist across a raised exception), and a list
of observable events (sleeps, signals, file copies) the call performs.

File-system paths are rendered as strings with `/` as the separator, which
matches `str()` of the `pathlib` values the code builds for the inputs the
claims are about.
-/

namespace SrtUtils

/-! ### Embedding of `srt_utils/objects.py` -/

/-- Embeds `get_query` (objects.py lines 26-31): renders each
attribute/value pair as `attr=value` and joins the pairs with `&`,
in input order. -/
def get_query (attrs_values : List (String × String)) : String :=
  String.intercalate "&" (attrs_values.map (fun av => av.1 ++ "=" ++ av.2))

/-- State of a `Tshark` object (objects.py class `Tshark`).  `name` is the
constant `"tshark"` set by `IObject.__init__`; `dirpath` and `filepath` are
always set by the constructor for this variant. -/
structure Tshark where
  name : String
  path : String
  interface : String
  port : String
  dirpath : String
  filepath : String
deriving DecidableEq, Repr

/-- Embeds `Tshark.__init__`: the output filename is
`{prefix}-tshark-tracefile.pcapng` (or `tshark-tracefile.pcapng` when no
prefix is given) placed under `dirpath`. -/
def Tshark.init (path interface port dirpath : String) (pfx : Option String) : Tshark :=
  let filename :=
    (match pfx with
     | some p => p ++ "-tshark-tracefile"
     | none => "tshark-tracefile") ++ ".pcapng"
  { name := "tshark", path, interface, port, dirpath,
    filepath := dirpath ++ "/" ++ filename }

/-- Embeds `Tshark.make_args` (objects.py lines 162-178). -/
def Tshark.make_args (t : Tshark) : List String :=
  [t.path, "-i", t.interface, "-f", "udp port " ++ t.port, "-s", "1500", "-w", t.filepath]

/-- Embeds `Tshark.make_str` (objects.py lines 181-200): space-joined
argument vector, wrapping an argument in double quotes iff it contains
a space character (`' ' in arg`). -/
def Tshark.make_str (t : Tshark) : String :=
  String.intercalate " "
    (t.make_args.map (fun arg => if arg.contains ' ' then "\"" ++ arg ++ "\"" else arg))

/-- State of a `SrtXtransmit` object (objects.py class `SrtXtransmit`).
`dirpath`/`filepath` are set iff a `statsdir` was supplied to the
constructor. -/
structure SrtXtransmit where
  name : String
  type : String
  path : String
  port : String
  host : String
  attrs_values : Option (List (String × String))
  options_values : Option (List (String × String))
  statsfreq : Option String
  dirpath : Option String
  filepath : Option String
deriving DecidableEq, Repr

/-- Embeds `SrtXtransmit.__init__`: when `statsdir` is given, the stats
filename is `{prefix}-srt-xtransmit-stats-{type}.csv` (without the
`{prefix}-` part when no prefix is given). -/
def SrtXtransmit.init (type path port host : String)
    (attrs_values options_values : Option (List (String × String)))
    (statsdir statsfreq pfx : Option String) : SrtXtransmit :=
  match statsdir with
  | some sd =>
      let filename :=
        (match pfx with
         | some p => p ++ "-srt-xtransmit-stats-" ++ type
         | none => "srt-xtransmit-stats-" ++ type) ++ ".csv"
      { name := "srt-xtransmit", type, path, port, host, attrs_values, options_values,
        statsfreq, dirpath := some sd, filepath := some (sd ++ "/" ++ filename) }
  | none =>
      { name := "srt-xtransmit", type, path, port, host, attrs_values, options_values,
        statsfreq, dirpath := none, filepath := none }

/-- The SRT URI argument built inside `SrtXtransmit.make_args`
(objects.py lines 337-340): `srt://{host}:{port}?{get_query(attrs_values)}`
when `attrs_values` is not `None`, and `srt://{host}:{port}` otherwise. -/
def SrtXtransmit.uri (o : SrtXtransmit) : String :=
  match o.attrs_values with
  | some avs => "srt://" ++ o.host ++ ":" ++ o.port ++ "?" ++ get_query avs
  | none => "srt://" ++ o.host ++ ":" ++ o.port

/-- Python truthiness of an optional string (`if self.statsfreq:`):
`None` and the empty string are falsy. -/
def optStrTruthy : Option String → Bool
  | none => false
  | some s => !(s == "")

/-- Python `str()` of an optional path (`str(self.filepath)`):
`None` renders as the string `"None"`. -/
def strOfOptPath : Option String → String
  | some s => s
  | none => "None"

/-- The loop in `SrtXtransmit.make_args` flattening the option/value pairs
into consecutive arguments. -/
def flattenPairs : List (String × String) → List String
  | [] => []
  | ov :: rest => ov.1 :: ov.2 :: flattenPairs rest

/-- Embeds `SrtXtransmit.make_args` (objects.py lines 313-352). -/
def SrtXtransmit.make_args (o : SrtXtransmit) : List String :=
  let args := [o.path]
  let args := args ++ (if o.type == "snd" then ["generate"] else [])
  let args := args ++ (if o.type == "rcv" then ["receive"] else [])
  let args := args ++ [o.uri]
  let args := args ++
    (match o.options_values with
     | some ovs => flattenPairs ovs
     | none => [])
  let args := args ++
    (if o.dirpath.isSome then
       ["--statsfile", strOfOptPath o.filepath] ++
         (if optStrTruthy o.statsfreq then ["--statsfreq", o.statsfreq.getD ""] else [])
     else [])
  args

/-- Python `str.startswith`, stated on the character lists so that
concrete instances evaluate inside the kernel. -/
def startsWith (pre s : String) : Bool :=
  pre.data.isPrefixOf s.data

/-- Embeds `SrtXtransmit.make_str` (objects.py lines 355-380): space-joined
argument vector, wrapping an argument in double quotes iff it starts with
`srt://`. -/
def SrtXtransmit.make_str (o : SrtXtransmit) : String :=
  String.intercalate " "
    (o.make_args.map (fun arg => if startsWith "srt://" arg then "\"" ++ arg ++ "\"" else arg))

/-- State of a `Netem` object (objects.py class `Netem`).  It has no
output file (`filepath = None`). -/
structure Netem where
  name : String
  interface : String
  rules : List String
deriving DecidableEq, Repr

/-- Embeds `Netem.__init__`. -/
def Netem.init (interface : String) (rules : List String) : Netem :=
  { name := "netem", interface, rules }

/-- Embeds `Netem.make_args` (objects.py lines 407-415): the fixed
`tc qdisc` invocation followed by every rule split on single spaces. -/
def Netem.make_args (n : Netem) : List String :=
  ["sudo", "tc", "qdisc", "add", "dev", n.interface, "root", "netem"] ++
    (n.rules.map (fun rule => rule.splitOn " ")).flatten

/-- Embeds `Netem.make_str` (objects.py lines 417-420): plain space join,
no argument is ever quoted. -/
def Netem.make_str (n : Netem) : String :=
  String.intercalate " " n.make_args

/-- Tagged union of the three `IObject` implementations. -/
inductive IObject where
  | tshark (t : Tshark)
  | srtXtransmit (s : SrtXtransmit)
  | netem (n : Netem)
deriving DecidableEq, Repr

/-- Dispatch of `make_args` over the object variants. -/
def IObject.make_args : IObject → List String
  | .tshark t => t.make_args
  | .srtXtransmit s => s.make_args
  | .netem n => n.make_args

/-- The `filepath` attribute of an object (`None` when the object
produces no collectible file). -/
def IObject.filepath : IObject → Option String
  | .tshark t => some t.filepath
  | .srtXtransmit s => s.filepath
  | .netem _ => none

/-- The `dirpath` attribute of an object. -/
def IObject.dirpath : IObject → Option String
  | .tshark t => some t.dirpath
  | .srtXtransmit s => s.dirpath
  | .netem _ => none

/-! ### Embedding of `srt_utils/process.py`

The `Process` class wraps one OS process.  The outside world (whether the
spawn raises `OSError`, what `Popen.poll()` returns at each successive call,
the buffered output lines, the pid) is an `Env`.  Each call to `poll()` is
numbered; `Env.poll i` is the result of the `i`-th poll on this handle
(`none` = still running, `some rc` = exited with code `rc`).  Only the
posix branch of `start` (the platform the tool targets) is embedded. -/

/-- The `enums.Status` values used by `Process.status`. -/
inductive Status where
  | idle
  | running
deriving DecidableEq, Repr

/-- `SSH_CONNECTION_TIMEOUT` (process.py line 15, also object_runners.py
line 15). -/
def SSH_CONNECTION_TIMEOUT : Nat := 10

/-- Observable side effects of `Process` methods. -/
inductive Event where
  | sleep (seconds : Nat)
  | sigint
  | kill
deriving DecidableEq, Repr

/-- The environment a `Process` runs against. -/
structure Env where
  spawnFails : Bool
  pid : Int
  poll : Nat → Option Int
  stdoutLines : List String
  stderrLines : List String
  collectDirExists : Bool
  outFileExists : Bool
  destExists : Bool
  transferOk : Bool

/-- Error kinds raised by `Process` methods (all are `SrtUtilsException`
in the source; the constructor records which `raise` fired and the data
interpolated into its message). -/
inductive PErr where
  | alreadyStarted
  | spawnError
  | processNotStarted (returncode : Option Int) (stdout stderr : List String)
  | terminateNotStarted
  | notTerminated
  | killNotStarted
  | notKilled
  | stopNotStarted
  | notStopped
  | collectNotStarted
deriving DecidableEq, Repr

/-- State of a `Process` wrapper.  `hasProc` is `self.process is not None`;
`pollCount` indexes the next `Env.poll` result. -/
structure Process where
  args : List String
  via_ssh : Bool
  hasProc : Bool
  id : Option Int
  is_started : Bool
  is_stopped : Bool
  pollCount : Nat
deriving DecidableEq, Repr

/-- Embeds `Process.__init__`. -/
def Process.init (args : List String) (via_ssh : Bool) : Process :=
  { args, via_ssh, hasProc := false, id := none,
    is_started := false, is_stopped := false, pollCount := 0 }

/-- Body of the `Process.status` property (process.py lines 45-71): no
handle or not started gives `(idle, None)` without polling; otherwise one
`poll()` decides `running`/`idle` and supplies the return code. -/
def Process.statusPoll (p : Process) (env : Env) : (Status × Option Int) × Process :=
  if p.hasProc = false then ((Status.idle, none), p)
  else if p.is_started = false then ((Status.idle, none), p)
  else
    match env.poll p.pollCount with
    | none => ((Status.running, none), { p with pollCount := p.pollCount + 1 })
    | some rc => ((Status.idle, some rc), { p with pollCount := p.pollCount + 1 })

/-- The `Process.status` property as called by client code.  Its body
contains no `raise`, so the `Except` result is always `.ok`. -/
def Process.status (p : Process) (env : Env) : Except PErr ((Status × Option Int) × Process) :=
  .ok (p.statusPoll env)

/-- The grace period slept after spawning (process.py lines 118-128):
`SSH_CONNECTION_TIMEOUT + 1` seconds when `via_ssh`, else 5 seconds. -/
def gracePeriod (via_ssh : Bool) : Nat :=
  if via_ssh then SSH_CONNECTION_TIMEOUT + 1 else 5

/-- Embeds `Process.start` (process.py lines 74-138, posix branch):
rejects a second start; a failed spawn raises; otherwise the handle
exists and `is_started` is set, the grace period is slept, and one status
check decides: if the process is already idle and `'netem'` is not among
the arguments, raise carrying the return code and the captured
stdout/stderr; otherwise record the pid. -/
def Process.start (p : Process) (env : Env) :
    Except PErr Unit × Process × List Event :=
  if p.is_started then (.error .alreadyStarted, p, [])
  else if env.spawnFails then (.error .spawnError, p, [])
  else
    let p1 := { p with hasProc := true, is_started := true }
    let evs := [Event.sleep (gracePeriod p.via_ssh)]
    let ((st, rc), p2) := p1.statusPoll env
    if st == Status.idle && !(p.args.contains "netem") then
      (.error (.processNotStarted rc env.stdoutLines env.stderrLines), p2, evs)
    else
      (.ok (), { p2 with id := some env.pid }, evs)

/-- The `for i in range(3)` polling loop of `Process._terminate`
(process.py lines 165-169): each iteration sleeps 1 second and polls;
returns whether the process became idle. -/
def Process.terminateLoop : Nat → Process → Env → Bool × Process × List Event
  | 0, p, _ => (false, p, [])
  | n + 1, p, env =>
      let ((st, _), p1) := p.statusPoll env
      if st == Status.idle then (true, p1, [Event.sleep 1])
      else
        match Process.terminateLoop n p1 env with
        | (b, p2, evs) => (b, p2, Event.sleep 1 :: evs)

/-- Embeds `Process._terminate` (process.py lines 141-171): no-op when
already stopped or already idle; otherwise send SIGINT and poll up to 3
times at 1-second intervals, raising if the process is still running. -/
def Process.terminate_ (p : Process) (env : Env) :
    Except PErr Unit × Process × List Event :=
  if p.is_started = false then (.error .terminateNotStarted, p, [])
  else if p.is_stopped then (.ok (), p, [])
  else
    let ((st, _), p1) := p.statusPoll env
    if st == Status.idle then (.ok (), p1, [])
    else
      match Process.terminateLoop 3 p1 env with
      | (true, p2, evs) => (.ok (), p2, Event.sigint :: evs)
      | (false, p2, evs) => (.error .notTerminated, p2, Event.sigint :: evs)

/-- Embeds `Process._kill` (process.py lines 174-200): no-op when already
stopped or already idle; otherwise kill, sleep 1 second, and raise if the
process is still running. -/
def Process.kill_ (p : Process) (env : Env) :
    Except PErr Unit × Process × List Event :=
  if p.is_started = false then (.error .killNotStarted, p, [])
  else if p.is_stopped then (.ok (), p, [])
  else
    let ((st, _), p1) := p.statusPoll env
    if st == Status.idle then (.ok (), p1, [])
    else
      let ((st2, _), p2) := p1.statusPoll env
      if st2 == Status.running then (.error .notKilled, p2, [Event.kill, Event.sleep 1])
      else (.ok (), p2, [Event.kill, Event.sleep 1])

/-- Embeds `Process.stop` (process.py lines 203-257): rejects when never
started; no-op when already stopped; otherwise `_terminate`, escalating
to `_kill` on failure; `is_stopped` is set iff one of them succeeded. -/
def Process.stop (p : Process) (env : Env) :
    Except PErr Unit × Process × List Event :=
  if p.is_started = false then (.error .stopNotStarted, p, [])
  else if p.is_stopped then (.ok (), p, [])
  else
    match p.terminate_ env with
    | (.ok _, p1, evs) => (.ok (), { p1 with is_stopped := true }, evs)
    | (.error _, p1, evs) =>
        match p1.kill_ env with
        | (.ok _, p2, evs2) => (.ok (), { p2 with is_stopped := true }, evs ++ evs2)
        | (.error _, p2, evs2) => (.error .notStopped, p2, evs ++ evs2)

/-- Embeds `Process.collect_results` (process.py lines 260-276): fails when
never started, otherwise returns the buffered stdout and stderr lines. -/
def Process.collect_results (p : Process) (env : Env) :
    Except PErr (List String × List String) :=
  if p.is_started = false then .error .collectNotStarted
  else .ok (env.stdoutLines, env.stderrLines)

/-! ### Embedding of `srt_utils/object_runners.py`

Classes `LocalProcess` and `RemoteProcess`, the local and remote object
runner variants defined in this module.  Result collection touches the
file system and the control channel; those effects are recorded as
`RCEvent`s and their outcomes are read from the `Env`. -/

/-- Error kinds raised by object runner methods.  `processFailure` stands
for the error escaping the runner when the wrapped `Process` call fails
(the `except` clauses in `LocalProcess.stop`/`start` name exception
classes that do not exist in `process.py`, so a process-level failure
always escapes the runner as an error either way). -/
inductive ORErr where
  | alreadyStarted
  | failedToStart
  | notYetStarted
  | notYetStopped
  | processFailure (e : PErr)
  | noCollectDir
  | noOutputProduced
  | destinationExists
  | channelError
deriving DecidableEq, Repr

/-- Observable side effects of result collection. -/
inductive RCEvent where
  | readOutput
  | ensureLocalDir (dir : String)
  | copyFile (src dst : String)
  | transferFile (src dst : String)
deriving DecidableEq, Repr

/-- The final path component (`pathlib.Path(...).name`). -/
def fileName (s : String) : String :=
  List.headD (s.splitOn "/").reverse s

/-- State of a `LocalProcess` runner (object_runners.py lines 102-285). -/
structure LocalProcess where
  obj : IObject
  collect_results_path : String
  runner : Process
  is_started : Bool
  is_stopped : Bool

/-- Embeds `LocalProcess.__init__`: the wrapped `Process` is built from the
object's argument vector, without the SSH flag. -/
def LocalProcess.init (obj : IObject) (collect_results_path : String) : LocalProcess :=
  { obj, collect_results_path, runner := Process.init obj.make_args false,
    is_started := false, is_stopped := false }

/-- Embeds `LocalProcess.stop` (object_runners.py lines 171-193): rejects
when never started; otherwise delegates to `Process.stop`; there is no
`is_stopped` short-circuit (the source leaves it as a TODO), and
`is_stopped` is set only after a successful process stop. -/
def LocalProcess.stop (lp : LocalProcess) (env : Env) :
    Except ORErr Unit × LocalProcess × List Event :=
  if lp.is_started = false then (.error .notYetStarted, lp, [])
  else
    match Process.stop lp.runner env with
    | (.ok _, p1, evs) => (.ok (), { lp with runner := p1, is_stopped := true }, evs)
    | (.error e, p1, evs) => (.error (.processFailure e), { lp with runner := p1 }, evs)

/-- Embeds `LocalProcess.collect_results` (object_runners.py lines
206-285): guard checks for not-started and not-stopped, then the process
output is read, the collection directory's existence is checked, a missing
`filepath` makes the call a no-op, a missing output file raises, and the
copy into `collect_results_path/local/` raises when the destination file
already exists. -/
def LocalProcess.collect_results (lp : LocalProcess) (env : Env) :
    Except ORErr Unit × List RCEvent :=
  if lp.is_started = false then (.error .notYetStarted, [])
  else if lp.is_stopped = false then (.error .notYetStopped, [])
  else if lp.runner.is_started = false then (.error (.processFailure .collectNotStarted), [])
  else
    let evs := [RCEvent.readOutput]
    if env.collectDirExists = false then (.error .noCollectDir, evs)
    else
      match lp.obj.filepath with
      | none => (.ok (), evs)
      | some fp =>
          if env.outFileExists = false then (.error .noOutputProduced, evs)
          else
            let destDir := lp.collect_results_path ++ "/local"
            let evs := evs ++ [RCEvent.ensureLocalDir destDir]
            if env.destExists then (.error .destinationExists, evs)
            else (.ok (), evs ++ [RCEvent.copyFile fp (destDir ++ "/" ++ fileName fp)])

/-- `SSH_COMMON_ARGS` (object_runners.py lines 23-28). -/
def SSH_COMMON_ARGS : List String :=
  ["ssh", "-t", "-o", "BatchMode=yes", "-o",
   "ConnectTimeout=" ++ toString SSH_CONNECTION_TIMEOUT]

/-- State of a `RemoteProcess` runner (object_runners.py lines 288-513). -/
structure RemoteProcess where
  obj : IObject
  username : String
  host : String
  collect_results_path : String
  runner : Process
  is_started : Bool
  is_stopped : Bool

/-- Embeds `RemoteProcess.__init__`: the wrapped `Process` arguments are
the SSH argument list, `username@host`, then every object argument wrapped
in double quotes; the SSH flag is set. -/
def RemoteProcess.init (obj : IObject) (username host collect_results_path : String) :
    RemoteProcess :=
  { obj, username, host, collect_results_path,
    runner := Process.init
      (SSH_COMMON_ARGS ++ [username ++ "@" ++ host] ++
        obj.make_args.map (fun arg => "\"" ++ arg ++ "\"")) true,
    is_started := false, is_stopped := false }

/-- Embeds `RemoteProcess.collect_results` (object_runners.py lines
455-513): the only guard is the not-started check; the process output is
read, a missing `filepath` returns early, and otherwise the local
`username@host` directory is ensured and the remote file is fetched over
the control channel to `{username}@{host}/olala.pcapng`.  There is no
not-stopped guard (the source marks the implementation unfinished). -/
def RemoteProcess.collect_results (rp : RemoteProcess) (env : Env) :
    Except ORErr Unit × List RCEvent :=
  if rp.is_started = false then (.error .notYetStarted, [])
  else if rp.runner.is_started = false then (.error (.processFailure .collectNotStarted), [])
  else
    let evs := [RCEvent.readOutput]
    match rp.obj.filepath with
    | none => (.ok (), evs)
    | some fp =>
        let dirpath := rp.username ++ "@" ++ rp.host
        let evs := evs ++ [RCEvent.ensureLocalDir dirpath]
        if env.transferOk = false then (.error .channelError, evs)
        else (.ok (), evs ++ [RCEvent.transferFile fp (dirpath ++ "/olala.pcapng")])

/-- Tagged union of the object runner variants built by the factory.  The
factory in `runners.py` names the classes `LocalRunner`/`RemoteRunner`;
the runner classes defined in `object_runners.py` are
`LocalProcess`/`RemoteProcess`, and they are the ones embedded here. -/
inductive IObjectRunner where
  | localRunner (lp : LocalProcess)
  | remoteRunner (rp : RemoteProcess)

/-! ### Embedding of `srt_utils/runners.py`

The per-task object and runner configurations (Python dicts) are embedded
as tagged records; writing a key into a dict becomes a functional record
update.  A per-task runner `stop()` call either succeeds or raises the
exception class the orchestrator's `stop()` catches; which of the two
happens for a given task is injected as a function `stopOk` from the task
key, so that the orchestrator loop can be analysed for every failure
pattern. -/

/-- A task of a single experiment (runners.py class `Task`). -/
structure Task where
  key : String
  obj : IObject
  obj_runner : IObjectRunner
  sleep_after_start : Option Nat
  sleep_after_stop : Option Nat
  stop_order : Option Int

/-- Observable side effects of the orchestrator's `stop()` loop. -/
inductive RunEvent where
  | stopAttempt (key : String)
  | stopFailed (key : String)
  | sleepAfterStop (seconds : Nat)
deriving DecidableEq, Repr

/-- Error kinds raised by `SingleExperimentRunner` methods (all are
`SrtUtilsException` in the source). -/
inductive SrtErr where
  | alreadyStartedExp
  | directoryExists
  | stopBeforeStart
  | notAllTasksStopped
deriving DecidableEq, Repr

/-- State of a `SingleExperimentRunner` (runners.py lines 106-151). -/
structure SingleExperimentRunner where
  collect_results_path : String
  ignore_stop_order : Bool
  stop_after : Nat
  tasks : List Task
  is_started : Bool
  is_stopped : Bool

/-- The `for task in reversed(self.tasks)` loop body of
`SingleExperimentRunner.stop` (runners.py lines 248-263), applied to an
already-reversed task list: each task gets a stop attempt; a failure is
counted and does not abort the loop; the `finally` block sleeps the task's
`sleep_after_stop` on success and failure alike.  Returns the
`not_stopped_tasks` counter and the event trace. -/
def stopTasksLoop (stopOk : String → Bool) : List Task → Nat × List RunEvent
  | [] => (0, [])
  | t :: rest =>
      let fail := !stopOk t.key
      let evsTask :=
        [RunEvent.stopAttempt t.key] ++
        (if fail then [RunEvent.stopFailed t.key] else []) ++
        (match t.sleep_after_stop with
         | some s => [RunEvent.sleepAfterStop s]
         | none => [])
      match stopTasksLoop stopOk rest with
      | (n, evs) => ((if fail then 1 else 0) + n, evsTask ++ evs)

/-- Embeds `SingleExperimentRunner.stop` (runners.py lines 224-268):
rejects when not started; no-op when already stopped; otherwise iterates
the tasks in reversed declaration order (the `ignore_stop_order` branch
is commented out in the source, so the flag is never consulted), raises
the single aggregate error when any task failed, and sets `is_stopped`
only when no task failed. -/
def SingleExperimentRunner.stop (r : SingleExperimentRunner) (stopOk : String → Bool) :
    Except SrtErr Unit × SingleExperimentRunner × List RunEvent :=
  if r.is_started = false then (.error .stopBeforeStart, r, [])
  else if r.is_stopped then (.ok (), r, [])
  else
    match stopTasksLoop stopOk r.tasks.reverse with
    | (failures, evs) =>
        if failures != 0 then (.error .notAllTasksStopped, r, evs)
        else (.ok (), { r with is_stopped := true }, evs)

/-- The per-variant object configuration dict.  Every variant carries a
`pfx` slot because `SingleExperimentRunner.__init__` writes the
`'prefix'` key into the dict of every task (the `netem` builder then
ignores it). -/
inductive ObjConfig where
  | tshark (path interface port dirpath : String) (pfx : Option String)
  | srtXtransmit (type path port : String) (host : Option String)
      (attrs_values options_values : Option (List (String × String)))
      (statsdir statsfreq : Option String) (pfx : Option String)
  | netem (interface : String) (rules : List String) (pfx : Option String)
deriving DecidableEq, Repr

/-- The dict write `config['obj_config']['prefix'] = key`
(runners.py line 140). -/
def ObjConfig.setPfx : ObjConfig → String → ObjConfig
  | .tshark path interface port dirpath _, k =>
      .tshark path interface port dirpath (some k)
  | .srtXtransmit type path port host avs ovs sd sf _, k =>
      .srtXtransmit type path port host avs ovs sd sf (some k)
  | .netem interface rules _, k => .netem interface rules (some k)

/-- Embeds `SimpleFactory.create_object` (runners.py lines 21-33) composed
with the per-variant `from_config` constructors of `objects.py`; an
unknown type string or a config dict lacking the keys the constructor
reads yields no object. -/
def createObject : String → ObjConfig → Option IObject
  | "tshark", .tshark path interface port dirpath pfx =>
      some (.tshark (Tshark.init path interface port dirpath pfx))
  | "srt-xtransmit", .srtXtransmit type path port host avs ovs sd sf pfx =>
      some (.srtXtransmit (SrtXtransmit.init type path port (host.getD "") avs ovs sd sf pfx))
  | "netem", .netem interface rules _ =>
      some (.netem (Netem.init interface rules))
  | _, _ => none

/-- The runner configuration dict. -/
structure RunnerConfig where
  username : Option String
  host : Option String
  collect_results_path : Option String
deriving DecidableEq, Repr

/-- The dict write `config['runner_config']['collect_results_path'] =
self.collect_results_path` (runners.py line 141). -/
def RunnerConfig.setCollect (c : RunnerConfig) (path : String) : RunnerConfig :=
  { c with collect_results_path := some path }

/-- Embeds `LocalProcess.from_config` (object_runners.py lines 125-136):
the collection path defaults to `'.'` when absent from the config. -/
def LocalProcess.from_config (obj : IObject) (config : RunnerConfig) : LocalProcess :=
  match config.collect_results_path with
  | some p => LocalProcess.init obj p
  | none => LocalProcess.init obj "."

/-- Embeds `RemoteProcess.from_config` (object_runners.py lines 367-385):
`username` and `host` are required; the collection path defaults
to `'.'`. -/
def RemoteProcess.from_config (obj : IObject) (config : RunnerConfig) :
    Option RemoteProcess :=
  match config.username, config.host with
  | some u, some h =>
      some (RemoteProcess.init obj u h (config.collect_results_path.getD "."))
  | _, _ => none

/-- Embeds `SimpleFactory.create_runner` (runners.py lines 35-45)
dispatching to the runner classes defined in `object_runners.py`. -/
def createRunner (obj : IObject) : String → RunnerConfig → Option IObjectRunner
  | "local-runner", cfg => some (.localRunner (LocalProcess.from_config obj cfg))
  | "remote-runner", cfg => (RemoteProcess.from_config obj cfg).map .remoteRunner
  | _, _ => none

/-- The per-task entry of the experiment configuration. -/
structure TaskConfig where
  obj_type : String
  obj_config : ObjConfig
  runner_type : String
  runner_config : RunnerConfig
  sleep_after_start : Option Nat
  sleep_after_stop : Option Nat
  stop_order : Option Int
deriving DecidableEq, Repr

/-- One iteration of the task-building loop in
`SingleExperimentRunner.__init__` (runners.py lines 139-146): the task key
is written into the object config as `'prefix'` and the experiment-level
collection path into the runner config as `'collect_results_path'`
before the factory builds the object and the runner. -/
def buildTask (collect_results_path key : String) (cfg : TaskConfig) : Option Task :=
  let oc := cfg.obj_config.setPfx key
  let rc := cfg.runner_config.setCollect collect_results_path
  match createObject cfg.obj_type oc with
  | none => none
  | some obj =>
      match createRunner obj cfg.runner_type rc with
      | none => none
      | some r =>
          some { key, obj, obj_runner := r,
                 sleep_after_start := cfg.sleep_after_start,
                 sleep_after_stop := cfg.sleep_after_stop,
                 stop_order := cfg.stop_order }

/-- Embeds `SingleExperimentRunner.__init__` (runners.py lines 108-151):
every configured task is built with `buildTask` and both lifecycle flags
start false. -/
def SingleExperimentRunner.init (collect_results_path : String) (ignore_stop_order : Bool)
    (stop_after : Nat) (taskConfigs : List (String × TaskConfig)) :
    Option SingleExperimentRunner :=
  match taskConfigs.mapM (fun kc => buildTask collect_results_path kc.1 kc.2) with
  | some tasks =>
      some { collect_results_path, ignore_stop_order, stop_after, tasks,
             is_started := false, is_stopped := false }
  | none => none

/-! ### Spec-side definitions used for refinement comparisons -/

/-- Space-join of an argument vector, wrapping an argument in double
quotes iff the predicate holds of it. -/
def renderWith (p : String → Bool) (args : List String) : String :=
  String.intercalate " " (args.map (fun arg => if p arg then "\"" ++ arg ++ "\"" else arg))

/-- Contiguous-subsequence test on character lists (substring
containment). -/
def hasSubSeq (pat : List Char) : List Char → Bool
  | [] => pat.isEmpty
  | c :: rest => pat.isPrefixOf (c :: rest) || hasSubSeq pat rest

/-- Follows the spec's words (P3): the rendered command string is the
space-joined vector with any argument containing whitespace or the
substring `srt://` individually quoted.  Compared against the per-variant
`make_str` functions embedded from the source. -/
def specClaimedRender (args : List String) : String :=
  renderWith
    (fun arg => arg.data.any Char.isWhitespace || hasSubSeq "srt://".data arg.data) args

/-! ### Theorems -/

/-- C4 counterexample: a `SrtXtransmit` whose `attrs_values` is the empty
list (not `None`) still gets a `?` appended to the URI, with an empty
query after it, so the claim's empty-list case is false on the code. -/
theorem c4_empty_attrs_counterexample :
    (SrtXtransmit.init "rcv" "bin/srt-xtransmit" "4200" "" (some []) none
        none none none).make_args = ["bin/srt-xtransmit", "receive", "srt://:4200?"] ∧
    (Char.ofNat 63) ∈ "srt://:4200?".data := by
  exact ⟨rfl, by decide⟩

/-- C4 (amended): each attribute pair renders as `key=value` and pairs
are joined with `&` preserving declaration order; no query string (in
particular no `?`) is appended only when `attrs_values` is `None`; when
`attrs_values` is present, `?` followed by the query is appended, and the
URI is one of the produced arguments. -/
theorem c4_query_string (o : SrtXtransmit) :
    (∀ a x b y : String, get_query [(a, x), (b, y)] = a ++ "=" ++ x ++ "&" ++ b ++ "=" ++ y) ∧
    get_query [] = "" ∧
    (∀ avs, o.attrs_values = some avs →
      o.uri = "srt://" ++ o.host ++ ":" ++ o.port ++ "?" ++ get_query avs) ∧
    (o.attrs_values = none → o.uri = "srt://" ++ o.host ++ ":" ++ o.port) ∧
    o.uri ∈ o.make_args := by
  refine ⟨?_, rfl, ?_, ?_, ?_⟩
  · intro a x b y
    show (((a ++ "=") ++ x) ++ "&") ++ ((b ++ "=") ++ y) =
      a ++ "=" ++ x ++ "&" ++ b ++ "=" ++ y
    simp [String.append_assoc]
  · intro avs h; simp [SrtXtransmit.uri, h]
  · intro h; simp [SrtXtransmit.uri, h]
  · simp [SrtXtransmit.make_args]

/-- Witness for `c4_query_string` at the spec's Scenario-B shaped input. -/
theorem c4_query_string_witness :
    (SrtXtransmit.init "snd" "xtr" "4200" "10.0.0.1"
        (some [("rcvbuf", "1000000000")]) none none none none).uri =
      "srt://10.0.0.1:4200?rcvbuf=1000000000" := by
  have h := (c4_query_string (SrtXtransmit.init "snd" "xtr" "4200" "10.0.0.1"
      (some [("rcvbuf", "1000000000")]) none none none none)).2.2.1
  exact (h [("rcvbuf", "1000000000")] rfl).trans (by decide)

/-- C5 counterexample: `SrtXtransmit.make_str` quotes only arguments
starting with `srt://`; an option value containing a space is left
unquoted, so the claim's uniform quoting rule is false on the code. -/
theorem c5_quoting_counterexample :
    (SrtXtransmit.init "rcv" "xtr" "4200" "" none
        (some [("--logfile", "my file.txt")]) none none none).make_str ≠
      specClaimedRender (SrtXtransmit.init "rcv" "xtr" "4200" "" none
        (some [("--logfile", "my file.txt")]) none none none).make_args ∧
    (SrtXtransmit.init "rcv" "xtr" "4200" "" none
        (some [("--logfile", "my file.txt")]) none none none).make_str =
      "xtr receive \"srt://:4200\" --logfile my file.txt" := by
  exact ⟨by decide, by decide⟩

/-- C5 (amended): `make_args` is a pure function of the object state, and
each variant's `make_str` is the space-joined vector with variant-specific
quoting: `Tshark` quotes arguments containing a space character,
`SrtXtransmit` quotes arguments starting with `srt://`, and `Netem`
quotes nothing. -/
theorem c5_make_str_variant_quoting (t : Tshark) (s : SrtXtransmit) (n : Netem) :
    t.make_str = renderWith (fun arg => arg.contains ' ') t.make_args ∧
    s.make_str = renderWith (fun arg => startsWith "srt://" arg) s.make_args ∧
    n.make_str = renderWith (fun _ => false) n.make_args := by
  refine ⟨rfl, rfl, ?_⟩
  simp [Netem.make_str, renderWith]

/-- A fully permissive environment used for concrete evaluations. -/
def env0 : Env :=
  { spawnFails := false, pid := 101, poll := fun _ => none,
    stdoutLines := [], stderrLines := [], collectDirExists := true,
    outFileExists := true, destExists := false, transferOk := true }

/-- An environment whose polls always report an exited process. -/
def envExit : Env := { env0 with poll := fun _ => some 1 }

/-- C6 counterexample: querying the status of a never-started `Process`
does not fail; it returns the plain `(idle, None)` answer (the `status`
property has no failure path at all). -/
theorem c6_status_counterexample :
    Process.status (Process.init ["tshark"] false) env0 =
      .ok ((Status.idle, none), Process.init ["tshark"] false) := rfl

/-- C6 (amended): `status` never fails, started or not; before `start()`
it returns `(idle, None)`; once started (with a live handle) it returns
`(running, None)` while the process runs and `(idle, returncode)` once it
has exited. -/
theorem c6_status_total (p : Process) (env : Env) :
    Process.status p env = .ok (p.statusPoll env) ∧
    (p.is_started = false → p.statusPoll env = ((Status.idle, none), p)) ∧
    (p.is_started = true → p.hasProc = true →
      p.statusPoll env =
        match env.poll p.pollCount with
        | none => ((Status.running, none), { p with pollCount := p.pollCount + 1 })
        | some rc => ((Status.idle, some rc), { p with pollCount := p.pollCount + 1 })) := by
  refine ⟨rfl, ?_, ?_⟩
  · intro h
    by_cases hp : p.hasProc <;> simp [Process.statusPoll, h, hp]
  · intro h1 h2
    simp [Process.statusPoll, h1, h2]

/-- A started process with a live handle, used as a concrete witness. -/
def P6s : Process :=
  { args := ["x"], via_ssh := false, hasProc := true, id := some 7,
    is_started := true, is_stopped := false, pollCount := 0 }

/-- Witness for `c6_status_total` on a started process that has exited. -/
theorem c6_status_total_witness :
    Process.status P6s envExit = .ok ((Status.idle, some 1), { P6s with pollCount := 1 }) := by
  have h := (c6_status_total P6s envExit).2.2 rfl rfl
  rw [(c6_status_total P6s envExit).1, h]; rfl

/-- A `Process` wrapping the arguments of a concrete `Netem` object. -/
def PN : Process := Process.init (Netem.init "eth0" ["delay 100ms"]).make_args false

/-- C7 counterexample: a process whose argument vector contains `netem`
(exactly the vector `Netem.make_args` produces) is exempt from the
post-grace-period liveness check: even though the process has already
exited (`poll` reports exit code 1), `start()` succeeds instead of
failing. -/
theorem c7_netem_exemption_counterexample :
    PN.args.contains "netem" = true ∧
    (PN.start envExit).1 = .ok () := ⟨rfl, rfl⟩

/-- C7 (amended): when the spawn succeeds but the process has already
exited at the post-grace-period status check, `start()` fails carrying
the exit code and the captured stdout/stderr — unless `netem` is among
the arguments; the slept grace period is 5 seconds, or
`SSH_CONNECTION_TIMEOUT + 1` (= 11, i.e. longer) when the process runs
via the control channel. -/
theorem c7_start_failure_detection (p : Process) (env : Env) (rc : Int)
    (h1 : p.is_started = false) (h2 : env.spawnFails = false)
    (h3 : env.poll p.pollCount = some rc) (h4 : p.args.contains "netem" = false) :
    p.start env =
      (.error (.processNotStarted (some rc) env.stdoutLines env.stderrLines),
       { p with hasProc := true, is_started := true, pollCount := p.pollCount + 1 },
       [Event.sleep (gracePeriod p.via_ssh)]) ∧
    gracePeriod true = SSH_CONNECTION_TIMEOUT + 1 ∧
    gracePeriod false = 5 ∧
    gracePeriod false < gracePeriod true := by
  refine ⟨?_, rfl, rfl, by decide⟩
  simp [Process.start, h1, h2, Process.statusPoll, h3, h4]
  simpa using h4

/-- Witness for `c7_start_failure_detection` on a concrete tshark-like
process that exits during the grace period. -/
theorem c7_start_failure_detection_witness :
    (Process.init ["tshark", "-i", "en0"] false).start envExit =
      (.error (.processNotStarted (some 1) [] []),
       { Process.init ["tshark", "-i", "en0"] false with
           hasProc := true, is_started := true, pollCount := 1 },
       [Event.sleep 5]) := by
  have h := c7_start_failure_detection (Process.init ["tshark", "-i", "en0"] false)
    envExit 1 rfl rfl rfl rfl
  exact h.1.trans (by rfl)

/-- `statusPoll` only advances the poll counter: the lifecycle flags are
unchanged. -/
theorem statusPoll_flags (p : Process) (env : Env) :
    ((p.statusPoll env).2).is_started = p.is_started ∧
    ((p.statusPoll env).2).is_stopped = p.is_stopped := by
  unfold Process.statusPoll
  split
  · exact ⟨rfl, rfl⟩
  · split
    · exact ⟨rfl, rfl⟩
    · split <;> exact ⟨rfl, rfl⟩

/-- The `_terminate` polling loop preserves the lifecycle flags. -/
theorem terminateLoop_flags (n : Nat) (p : Process) (env : Env) :
    ((Process.terminateLoop n p env).2.1).is_started = p.is_started ∧
    ((Process.terminateLoop n p env).2.1).is_stopped = p.is_stopped := by
  induction n generalizing p with
  | zero => exact ⟨rfl, rfl⟩
  | succ n ih =>
      unfold Process.terminateLoop
      have hf := statusPoll_flags p env
      rcases hsp : p.statusPoll env with ⟨⟨st, rc⟩, p1⟩
      rw [hsp] at hf
      by_cases hst : (st == Status.idle) = true
      · simp [hst]; exact hf
      · have hTL := ih p1
        rcases hTLe : Process.terminateLoop n p1 env with ⟨b, p2, evs⟩
        rw [hTLe] at hTL
        simp [hst, hTLe]
        exact ⟨hTL.1.trans hf.1, hTL.2.trans hf.2⟩

/-- `_terminate` preserves the lifecycle flags of the process state it
returns (it never writes `is_stopped` itself). -/
theorem terminate_flags (p : Process) (env : Env) :
    ((p.terminate_ env).2.1).is_started = p.is_started ∧
    ((p.terminate_ env).2.1).is_stopped = p.is_stopped := by
  unfold Process.terminate_
  split
  · exact ⟨rfl, rfl⟩
  split
  · exact ⟨rfl, rfl⟩
  have hf := statusPoll_flags p env
  rcases hsp : p.statusPoll env with ⟨⟨st, rc⟩, p1⟩
  rw [hsp] at hf
  by_cases hst : (st == Status.idle) = true
  · simp [hst]; exact hf
  · have hTL := terminateLoop_flags 3 p1 env
    rcases hTLe : Process.terminateLoop 3 p1 env with ⟨b, p2, evs⟩
    rw [hTLe] at hTL
    cases b <;> simp [hst, hTLe] <;>
      exact ⟨hTL.1.trans hf.1, hTL.2.trans hf.2⟩

/-- `_kill` preserves the lifecycle flags of the process state it
returns. -/
theorem kill_flags (p : Process) (env : Env) :
    ((p.kill_ env).2.1).is_started = p.is_started ∧
    ((p.kill_ env).2.1).is_stopped = p.is_stopped := by
  unfold Process.kill_
  split
  · exact ⟨rfl, rfl⟩
  split
  · exact ⟨rfl, rfl⟩
  have hf := statusPoll_flags p env
  rcases hsp : p.statusPoll env with ⟨⟨st, rc⟩, p1⟩
  rw [hsp] at hf
  by_cases hst : (st == Status.idle) = true
  · simp [hst]; exact hf
  · have hf2 := statusPoll_flags p1 env
    rcases hsp2 : p1.statusPoll env with ⟨⟨st2, rc2⟩, p2⟩
    rw [hsp2] at hf2
    by_cases hst2 : (st2 == Status.running) = true <;>
      simp [hst, hsp2, hst2] <;>
      exact ⟨hf2.1.trans hf.1, hf2.2.trans hf.2⟩

/-- `Process.stop` preserves `is_started`, and a successful stop implies
the returned state has `is_stopped = true` and that the process had been
started. -/
theorem Process.stop_spec (p : Process) (env : Env) :
    ((p.stop env).2.1).is_started = p.is_started ∧
    (∀ u p1 evs, p.stop env = (.ok u, p1, evs) →
      p1.is_stopped = true ∧ p.is_started = true) := by
  cases hstr : p.is_started with
  | false =>
      have heq : p.stop env = (.error .stopNotStarted, p, []) := by
        simp [Process.stop, hstr]
      refine ⟨by rw [heq]; exact hstr, fun u p1 evs h => ?_⟩
      rw [heq] at h
      injection h with hres hrest
      injection hres
  | true =>
      cases hstp : p.is_stopped with
      | true =>
          have heq : p.stop env = (.ok (), p, []) := by
            simp [Process.stop, hstr, hstp]
          refine ⟨by rw [heq]; exact hstr, fun u p1 evs h => ?_⟩
          rw [heq] at h
          injection h with hres hrest
          injection hrest with hstate hevs
          exact ⟨hstate ▸ hstp, rfl⟩
      | false =>
          have ht := terminate_flags p env
          rcases hte : p.terminate_ env with ⟨tres, pt, tevs⟩
          rw [hte] at ht
          cases tres with
          | ok v =>
              have heq : p.stop env = (.ok (), { pt with is_stopped := true }, tevs) := by
                simp [Process.stop, hstr, hstp, hte]
              refine ⟨?_, fun u p1 evs h => ?_⟩
              · rw [heq]; exact ht.1.trans hstr
              · rw [heq] at h
                injection h with hres hrest
                injection hrest with hstate hevs
                exact ⟨hstate ▸ rfl, rfl⟩
          | error e =>
              have hk := kill_flags pt env
              rcases hke : pt.kill_ env with ⟨kres, pk, kevs⟩
              rw [hke] at hk
              cases kres with
              | ok v =>
                  have heq : p.stop env =
                      (.ok (), { pk with is_stopped := true }, tevs ++ kevs) := by
                    simp [Process.stop, hstr, hstp, hte, hke]
                  refine ⟨?_, fun u p1 evs h => ?_⟩
                  · rw [heq]; exact (hk.1.trans ht.1).trans hstr
                  · rw [heq] at h
                    injection h with hres hrest
                    injection hrest with hstate hevs
                    exact ⟨hstate ▸ rfl, rfl⟩
              | error e2 =>
                  have heq : p.stop env = (.error .notStopped, pk, tevs ++ kevs) := by
                    simp [Process.stop, hstr, hstp, hte, hke]
                  refine ⟨?_, fun u p1 evs h => ?_⟩
                  · rw [heq]; exact (hk.1.trans ht.1).trans hstr
                  · rw [heq] at h
                    injection h with hres hrest
                    injection hres

/-- A second `Process.stop` on a started-and-stopped process is a pure
no-op: success, unchanged state, no events. -/
theorem Process.stop_again (p : Process) (env : Env)
    (h1 : p.is_started = true) (h2 : p.is_stopped = true) :
    p.stop env = (.ok (), p, []) := by
  simp [Process.stop, h1, h2]

/-- C8: stopping an object runner is idempotent.  Any successful
`LocalProcess.stop` leaves a state on which a second `stop()` succeeds,
changes nothing and performs no events (in particular sends no signal);
and whenever the wrapped process is already idle at stop time, `stop()`
succeeds without performing any event (no SIGINT, no kill). -/
theorem c8_idempotent_stop (lp : LocalProcess) (env env2 : Env) :
    (∀ u lp1 evs, lp.stop env = (.ok u, lp1, evs) →
        lp1.is_started = true ∧ lp1.is_stopped = true ∧
        lp1.runner.is_started = true ∧ lp1.runner.is_stopped = true ∧
        lp1.stop env2 = (.ok (), lp1, [])) ∧
    (lp.is_started = true → lp.runner.is_started = true →
      (lp.runner.statusPoll env).1.1 = Status.idle →
        (lp.stop env).1 = .ok () ∧ (lp.stop env).2.2 = []) := by
  constructor
  · intro u lp1 evs h
    cases hls : lp.is_started with
    | false =>
        have heq : lp.stop env = (.error .notYetStarted, lp, []) := by
          simp [LocalProcess.stop, hls]
        rw [heq] at h
        injection h with hres hrest
        injection hres
    | true =>
        have hspec := Process.stop_spec lp.runner env
        rcases hps : Process.stop lp.runner env with ⟨res, pr, pevs⟩
        rw [hps] at hspec
        cases res with
        | error e =>
            have heq : lp.stop env =
                (.error (.processFailure e), { lp with runner := pr }, pevs) := by
              simp [LocalProcess.stop, hls, hps]
            rw [heq] at h
            injection h with hres hrest
            injection hres
        | ok v =>
            have heq : lp.stop env =
                (.ok (), { lp with runner := pr, is_stopped := true }, pevs) := by
              simp [LocalProcess.stop, hls, hps]
            rw [heq] at h
            injection h with hres hrest
            injection hrest with hstate hevs
            have hrstopped : pr.is_stopped = true := (hspec.2 v pr pevs rfl).1
            have hrstarted : lp.runner.is_started = true := (hspec.2 v pr pevs rfl).2
            have hprstart : pr.is_started = true := hspec.1.trans hrstarted
            subst hstate
            refine ⟨hls, rfl, hprstart, hrstopped, ?_⟩
            simp [LocalProcess.stop, hls, Process.stop_again pr env2 hprstart hrstopped]
  · intro h1 h2 hidle
    cases hrs : lp.runner.is_stopped with
    | true =>
        have hps : Process.stop lp.runner env = (.ok (), lp.runner, []) :=
          Process.stop_again lp.runner env h2 hrs
        have heq : lp.stop env =
            (.ok (), { lp with runner := lp.runner, is_stopped := true }, []) := by
          simp [LocalProcess.stop, h1, hps]
        rw [heq]; exact ⟨rfl, rfl⟩
    | false =>
        have hterm : lp.runner.terminate_ env =
            (.ok (), (lp.runner.statusPoll env).2, []) := by
          unfold Process.terminate_
          rcases hsp : lp.runner.statusPoll env with ⟨⟨st, rc⟩, p1⟩
          rw [hsp] at hidle
          simp only at hidle
          simp [h2, hrs, hidle]
        have heq : lp.stop env =
            (.ok (), { lp with
                runner := { (lp.runner.statusPoll env).2 with is_stopped := true },
                is_stopped := true }, []) := by
          simp [LocalProcess.stop, h1, Process.stop, h2, hrs, hterm]
        rw [heq]; exact ⟨rfl, rfl⟩

/-- A started local runner wrapping a started, running process. -/
def LP0 : LocalProcess :=
  { obj := .netem (Netem.init "eth0" []),
    collect_results_path := "_res",
    runner := { args := ["sudo"], via_ssh := false, hasProc := true, id := some 5,
                is_started := true, is_stopped := false, pollCount := 0 },
    is_started := true, is_stopped := false }

/-- The process state of `LP0.runner` after one poll and a stop. -/
def LP1runner : Process :=
  { LP0.runner with is_stopped := true, pollCount := 1 }

/-- The state `LP0` reaches after one successful `stop()` against
`envExit` (the wrapped process had already exited). -/
def LP1 : LocalProcess :=
  { LP0 with runner := LP1runner, is_stopped := true }

/-- Witness for `c8_idempotent_stop` on a concrete started-then-stopped
runner. -/
theorem c8_idempotent_stop_witness :
    LocalProcess.stop LP1 env0 = (.ok (), LP1, []) ∧
    (LocalProcess.stop LP0 envExit).2.2 = [] := by
  have h1 := (c8_idempotent_stop LP0 envExit env0).1 () LP1 [] (by rfl)
  have h2 := (c8_idempotent_stop LP0 envExit env0).2 rfl rfl (by rfl)
  exact ⟨h1.2.2.2.2, h2.2⟩

/-- The keys of the stop attempts in an orchestrator event trace, in
order. -/
def attemptKeys (evs : List RunEvent) : List String :=
  evs.filterMap (fun e => match e with
    | RunEvent.stopAttempt k => some k
    | _ => none)

/-- `attemptKeys` distributes over trace concatenation. -/
theorem attemptKeys_append (l1 l2 : List RunEvent) :
    attemptKeys (l1 ++ l2) = attemptKeys l1 ++ attemptKeys l2 := by
  simp [attemptKeys]

/-- The stop loop issues exactly one stop attempt per task, in list
order, whatever the per-task outcomes. -/
theorem stopTasksLoop_attempts (f : String → Bool) (l : List Task) :
    attemptKeys (stopTasksLoop f l).2 = l.map Task.key := by
  induction l with
  | nil => rfl
  | cons t rest ih =>
      unfold stopTasksLoop
      rcases hL : stopTasksLoop f rest with ⟨n, evs⟩
      rw [hL] at ih
      cases hf : f t.key <;> cases hs : t.sleep_after_stop <;>
        simpa [hf, hs, attemptKeys_append, attemptKeys] using ih

/-- The failure counter of the stop loop counts the tasks whose stop
failed. -/
theorem stopTasksLoop_count (f : String → Bool) (l : List Task) :
    (stopTasksLoop f l).1 = l.countP (fun t => !f t.key) := by
  induction l with
  | nil => rfl
  | cons t rest ih =>
      unfold stopTasksLoop
      rcases hL : stopTasksLoop f rest with ⟨n, evs⟩
      rw [hL] at ih
      cases hf : f t.key <;> simp [hf, List.countP_cons, ih] <;> omega

/-- A minimal task used in concrete experiment instances. -/
def sampleTask (key : String) : Task :=
  { key, obj := .netem (Netem.init "eth0" []),
    obj_runner := .localRunner (LocalProcess.init (.netem (Netem.init "eth0" [])) "_results"),
    sleep_after_start := none, sleep_after_stop := none, stop_order := none }

/-- A started two-task experiment with `ignore_stop_order = true`. -/
def R1 : SingleExperimentRunner :=
  { collect_results_path := "_results", ignore_stop_order := true, stop_after := 5,
    tasks := [sampleTask "a", sampleTask "b"], is_started := true, is_stopped := false }

/-- C1 counterexample: with `ignore_stop_order = true` the stop attempts
are issued in reverse declaration order (`b` before `a`), not in
declaration order as the claim states — the source iterates
`reversed(self.tasks)` unconditionally. -/
theorem c1_stop_order_counterexample :
    R1.ignore_stop_order = true ∧
    (R1.stop (fun _ => true)).2.2 = [RunEvent.stopAttempt "b", RunEvent.stopAttempt "a"] ∧
    [RunEvent.stopAttempt "b", RunEvent.stopAttempt "a"] ≠
      [RunEvent.stopAttempt "a", RunEvent.stopAttempt "b"] := by
  refine ⟨rfl, rfl, by decide⟩

/-- Shared helper: for a started, not-yet-stopped experiment, the stop
attempts in the trace of `stop()` are the task keys in reverse
declaration order. -/
theorem stop_attempts_reversed (r : SingleExperimentRunner) (f : String → Bool)
    (hstart : r.is_started = true) (hstop : r.is_stopped = false) :
    attemptKeys (r.stop f).2.2 = (r.tasks.map Task.key).reverse := by
  have hattempts := stopTasksLoop_attempts f r.tasks.reverse
  rcases hL : stopTasksLoop f r.tasks.reverse with ⟨n, evs⟩
  rw [hL] at hattempts
  have heq : (r.stop f).2.2 = evs := by
    simp only [SingleExperimentRunner.stop, hstart, hstop]
    simp [hL]
    split <;> rfl
  rw [heq, hattempts, List.map_reverse]

/-- C1 (amended): for every started, not-yet-stopped experiment, `stop()`
issues the per-task stop attempts in reverse declaration order, whatever
the value of `ignore_stop_order` and whatever the per-task outcomes. -/
theorem c1_stop_reversed_order (r : SingleExperimentRunner) (f : String → Bool)
    (hstart : r.is_started = true) (hstop : r.is_stopped = false) :
    attemptKeys (r.stop f).2.2 = (r.tasks.map Task.key).reverse :=
  stop_attempts_reversed r f hstart hstop

/-- Witness for `c1_stop_reversed_order` on the concrete runner `R1`. -/
theorem c1_stop_reversed_order_witness :
    attemptKeys (R1.stop (fun _ => true)).2.2 = ["b", "a"] := by
  have h := c1_stop_reversed_order R1 (fun _ => true) rfl rfl
  exact h.trans (by decide)

/-- A started one-task experiment. -/
def R2 : SingleExperimentRunner :=
  { collect_results_path := "_results", ignore_stop_order := false, stop_after := 5,
    tasks := [sampleTask "a"], is_started := true, is_stopped := false }

/-- C2 counterexample: when a per-task stop fails, `stop()` raises the
aggregate error *before* the `is_stopped = True` assignment, so the
stopped flag remains false — the claim says it would be set. -/
theorem c2_stopped_flag_counterexample :
    (R2.stop (fun _ => false)).1 = .error .notAllTasksStopped ∧
    ((R2.stop (fun _ => false)).2.1).is_stopped = false := ⟨rfl, rfl⟩

/-- C2 (amended): for a started, not-yet-stopped experiment, the stopped
flag is true after `stop()` iff `stop()` succeeded, i.e. iff no per-task
stop failed; when the aggregate error is raised the flag stays false. -/
theorem c2_stopped_iff_no_failure (r : SingleExperimentRunner) (f : String → Bool)
    (hstart : r.is_started = true) (hstop : r.is_stopped = false) :
    (((r.stop f).2.1).is_stopped = true ↔ (r.stop f).1 = .ok ()) ∧
    ((r.stop f).1 = .ok () ↔ (stopTasksLoop f r.tasks.reverse).1 = 0) := by
  rcases hL : stopTasksLoop f r.tasks.reverse with ⟨n, evs⟩
  have heq : r.stop f =
      (if n != 0 then (.error .notAllTasksStopped, r, evs)
       else (.ok (), { r with is_stopped := true }, evs)) := by
    simp [SingleExperimentRunner.stop, hstart, hstop, hL]
  rw [heq]
  by_cases hn : n = 0
  · subst hn; simp
  · simp [hn, hstop]

/-- Witness for `c2_stopped_iff_no_failure` on the concrete runner `R2`
with a failing task. -/
theorem c2_stopped_iff_no_failure_witness :
    ((R2.stop (fun _ => false)).2.1).is_stopped = false := by
  have h := (c2_stopped_iff_no_failure R2 (fun _ => false) rfl rfl).1
  have hres : (R2.stop (fun _ => false)).1 = .error .notAllTasksStopped := rfl
  cases hflag : ((R2.stop (fun _ => false)).2.1).is_stopped with
  | false => rfl
  | true =>
      have := h.mp hflag
      rw [hres] at this
      exact absurd this (by simp)

/-- A started three-task experiment. -/
def R3 : SingleExperimentRunner :=
  { collect_results_path := "_results", ignore_stop_order := false, stop_after := 5,
    tasks := [sampleTask "a", sampleTask "b", sampleTask "c"],
    is_started := true, is_stopped := false }

/-- C3: when exactly one task's stop fails, every task still gets a stop
attempt (in reverse declaration order), the loop's failure count is
exactly one, and `stop()` raises the single aggregate error only after
the whole loop has run. -/
theorem c3_stop_failure_aggregation (r : SingleExperimentRunner) (f : String → Bool)
    (hstart : r.is_started = true) (hstop : r.is_stopped = false)
    (hone : r.tasks.countP (fun t => !f t.key) = 1) :
    (r.stop f).1 = .error .notAllTasksStopped ∧
    attemptKeys (r.stop f).2.2 = (r.tasks.map Task.key).reverse ∧
    (stopTasksLoop f r.tasks.reverse).1 = 1 := by
  have hcount : (stopTasksLoop f r.tasks.reverse).1 = 1 := by
    rw [stopTasksLoop_count]
    simpa using hone
  refine ⟨?_, stop_attempts_reversed r f hstart hstop, hcount⟩
  rcases hL : stopTasksLoop f r.tasks.reverse with ⟨n, evs⟩
  rw [hL] at hcount
  simp only at hcount
  subst hcount
  simp [SingleExperimentRunner.stop, hstart, hstop, hL]

/-- Witness for `c3_stop_failure_aggregation` on the three-task `R3`
where only task `b` fails to stop. -/
theorem c3_stop_failure_aggregation_witness :
    (R3.stop (fun k => k != "b")).1 = .error .notAllTasksStopped ∧
    attemptKeys (R3.stop (fun k => k != "b")).2.2 = ["c", "b", "a"] := by
  have h := c3_stop_failure_aggregation R3 (fun k => k != "b") rfl rfl (by decide)
  exact ⟨h.1, h.2.1.trans (by decide)⟩

/-- A started remote runner (started process, output file declared)
whose experiment has not been stopped yet. -/
def RP0 : RemoteProcess :=
  { obj := .tshark (Tshark.init "tshark" "en0" "4200" "_results" (some "1")),
    username := "u", host := "h", collect_results_path := "_res",
    runner := { args := [], via_ssh := true, hasProc := true, id := some 9,
                is_started := true, is_stopped := false, pollCount := 0 },
    is_started := true, is_stopped := false }

/-- A local runner in the same started-not-yet-stopped state as `RP0`. -/
def LP9 : LocalProcess :=
  { obj := .tshark (Tshark.init "tshark" "en0" "4200" "_results" (some "1")),
    collect_results_path := "_res",
    runner := { args := [], via_ssh := false, hasProc := true, id := some 9,
                is_started := true, is_stopped := false, pollCount := 0 },
    is_started := true, is_stopped := false }

/-- C9 (code bug): `RemoteProcess.collect_results` has no not-stopped
guard: on a started, not-yet-stopped runner it reads the process output
and performs the file transfer, while the sibling
`LocalProcess.collect_results` rejects the very same state with the
not-yet-stopped guard error before touching anything. -/
theorem c9_missing_stop_guard :
    RP0.is_started = true ∧ RP0.is_stopped = false ∧
    RP0.collect_results env0 =
      (.ok (), [RCEvent.readOutput, RCEvent.ensureLocalDir "u@h",
                RCEvent.transferFile "_results/1-tshark-tracefile.pcapng" "u@h/olala.pcapng"]) ∧
    (LP9.collect_results env0).1 = .error .notYetStopped :=
  ⟨rfl, rfl, rfl, rfl⟩

/-- A task configuration carrying supplied per-task `prefix` and
`collect_results_path` values, as `SingleExperimentRunner.__init__`
receives it before overwriting them. -/
def TaskConfig.withSupplied (cfg : TaskConfig) (x y : String) : TaskConfig :=
  { cfg with obj_config := cfg.obj_config.setPfx x,
             runner_config := cfg.runner_config.setCollect y }

/-- C10: construction overwrites the object config `prefix` with the task
key and the runner config `collect_results_path` with the experiment
collection path before building, so any supplied per-task prefix or
collection path yields exactly the same built task; and the local runner
built from the rewritten config uses the experiment collection path. -/
theorem c10_prefix_and_collect_path_overridden (cp k x y : String) (cfg : TaskConfig) :
    buildTask cp k (cfg.withSupplied x y) = buildTask cp k cfg ∧
    (∀ obj : IObject,
      (LocalProcess.from_config obj (cfg.runner_config.setCollect cp)).collect_results_path
        = cp) := by
  constructor
  · rcases cfg with ⟨ot, oc, rt, rc, s1, s2, so⟩
    rcases rc with ⟨u, h, c⟩
    cases oc <;> rfl
  · intro obj; rfl

end SrtUtils
